import Mathlib

/-!
Verification of the linked-list traversal benchmark
(`src/stand_alone_rust_program/linked_list_bench/`).

The repository holds two variants of the same program:
* `timed_traversal.rs` — wall-clock-only benchmark; usage goes to stderr,
  an unparseable argument is reported as an error and the program returns.
* `main.rs` — x86_64 hardware-cycle benchmark; usage goes to stdout,
  an unparseable argument silently falls back to the default count 100000.

Shallow embedding conventions:
* `Box<Node<T>>` ownership is modelled by the inductive `Node`;
  `Link<T> = Option<Box<Node<T>>>` becomes `Option (Node T)`.
* `usize` values are modelled as `Nat`; `usize::from_str` (the x86_64
  target has 64-bit `usize`) is modelled by `parseUsize`, which fails on
  values above `2^64 - 1` exactly as the Rust parser does.
* Methods taking `&self` are pure functions of the list value.
* Wall-clock `Instant`/`Duration` sampling and the raw `rdtsc` cycle
  counts are real-time hardware observations and are not modelled; the
  output lines that print only those quantities are omitted from the
  stdout models, every other printed line is reproduced verbatim.
* The `f64` divisions of the statistics sections are modelled exactly
  over `ℚ`; the claims about them concern only the `visited > 0` guard,
  not floating-point rounding.
-/

mutual

/-- Node of the singly linked list: a payload `data` and the owning link
`next` to the rest of the chain (from `struct Node<T>` in both variants). -/
inductive Node (T : Type) where
  | mk (data : T) (next : Link T)

/-- Link type, `type Link<T> = Option<Box<Node<T>>>`: either no node or
ownership of one (`Box` adds only heap indirection, no semantics). -/
inductive Link (T : Type) where
  | none : Link T
  | some (node : Node T) : Link T

end

/-- The list structure: an optional head node and a stored node count
(from `struct LinkedList<T>` in both variants). -/
structure LinkedList (T : Type) where
  head : Link T
  count : Nat

/-- Creates a new, empty linked list (`LinkedList::new`). -/
def LinkedList.new {T : Type} : LinkedList T :=
  { head := Link.none, count := 0 }

/-- Prepends a new node with the given data (`LinkedList::push`): the new
node owns `data` and the old head as its successor, becomes the head, and
`count` is incremented. -/
def LinkedList.push {T : Type} (l : LinkedList T) (data : T) : LinkedList T :=
  let new_node := Node.mk data l.head
  { head := Link.some new_node, count := l.count + 1 }

/-- The traversal loop shared by `traverse_and_time` and
`benchmark_traversal`: starting from the cursor `current` and the running
counter `visited_count`, follow `next` links until `None`, incrementing
the counter at each node. -/
def traverseLoop {T : Type} : Link T → Nat → Nat
  | .none, visited_count => visited_count
  | .some (Node.mk _ next), visited_count => traverseLoop next (visited_count + 1)

/-- Number of nodes reachable from a link by following `next` links to the
terminal `none` (the quantity the `count` invariant speaks about). -/
def chainLength {T : Type} : Link T → Nat
  | .none => 0
  | .some (Node.mk _ next) => chainLength next + 1

/-- Sequence of payloads in the order the traversal loop dereferences the
nodes (head first, then along `next` links). -/
def chainData {T : Type} : Link T → List T
  | .none => []
  | .some (Node.mk data next) => data :: chainData next

/-- Visited-count result of `LinkedList::traverse_and_time`
(`timed_traversal.rs`): the loop starts at the head with counter 0.
The `Duration` component of the Rust return value is real time and is
not modelled. -/
def LinkedList.traverse_and_time {T : Type} (l : LinkedList T) : Nat :=
  traverseLoop l.head 0

/-- Visited-count result of `LinkedList::benchmark_traversal` (`main.rs`):
the same counting loop as `traverse_and_time`; the `Duration` and cycle
components are real-time observations and are not modelled. -/
def LinkedList.benchmark_traversal {T : Type} (l : LinkedList T) : Nat :=
  traverseLoop l.head 0

/-- State-passing view of `traverse_and_time`, modelling the `&self`
receiver: the call returns the visited count together with the list the
caller holds afterwards.  The Rust body only writes the locals `current`
and `visited_count`, never `self`, so the list handed back is the input. -/
def LinkedList.traverse_and_time_run {T : Type} (l : LinkedList T) :
    Nat × LinkedList T :=
  (traverseLoop l.head 0, l)

/-- List built by both `main` functions from a parsed count:
`for i in 0..num_nodes { list.push(i) }` starting from `new()`. -/
def buildList (num_nodes : Nat) : LinkedList Nat :=
  (List.range num_nodes).foldl LinkedList.push LinkedList.new

theorem traverseLoop_eq_chainLength_add {T : Type} :
    ∀ (c : Link T) (v : Nat), traverseLoop c v = chainLength c + v
  | .none, v => by simp [traverseLoop, chainLength]
  | .some (Node.mk data next), v => by
    simp only [traverseLoop, chainLength]
    rw [traverseLoop_eq_chainLength_add next (v + 1)]
    omega

theorem traverse_and_time_eq_chainLength {T : Type} (l : LinkedList T) :
    l.traverse_and_time = chainLength l.head := by
  unfold LinkedList.traverse_and_time
  rw [traverseLoop_eq_chainLength_add]
  omega

theorem push_head {T : Type} (l : LinkedList T) (x : T) :
    (l.push x).head = Link.some (Node.mk x l.head) := rfl

theorem push_count {T : Type} (l : LinkedList T) (x : T) :
    (l.push x).count = l.count + 1 := rfl

theorem buildList_zero : buildList 0 = LinkedList.new := rfl

theorem buildList_succ (n : Nat) :
    buildList (n + 1) = (buildList n).push n := by
  unfold buildList
  rw [List.range_succ, List.foldl_append, List.foldl_cons, List.foldl_nil]

theorem chainLength_buildList (n : Nat) :
    chainLength (buildList n).head = n := by
  induction n with
  | zero => simp [buildList_zero, LinkedList.new, chainLength]
  | succ n ih =>
    rw [buildList_succ, push_head]
    simp only [chainLength, ih]

theorem count_buildList (n : Nat) : (buildList n).count = n := by
  induction n with
  | zero => rfl
  | succ n ih => rw [buildList_succ, push_count, ih]

theorem chainData_buildList (n : Nat) :
    chainData (buildList n).head = (List.range n).reverse := by
  induction n with
  | zero => simp [buildList_zero, LinkedList.new, chainData]
  | succ n ih =>
    rw [buildList_succ, push_head, List.range_succ, List.reverse_append]
    simp only [chainData, ih, List.reverse_cons, List.reverse_nil,
      List.nil_append, List.singleton_append]

/-- Largest value of the 64-bit `usize` of the x86_64 target. -/
def USIZE_MAX : Nat := 2 ^ 64 - 1

/-- Digit-accumulation loop of `usize::from_str` (radix 10): each step
multiplies by 10 and adds the digit, failing on a non-digit character or
on overflow past `USIZE_MAX` exactly as the checked arithmetic does. -/
def parseUsizeDigits : List Char → Nat → Option Nat
  | [], acc => some acc
  | c :: cs, acc =>
    if c.isDigit then
      let acc' := acc * 10 + (c.toNat - Char.toNat '0')
      if acc' > USIZE_MAX then none else parseUsizeDigits cs acc'
    else none

/-- Model of `str::parse::<usize>()` as used by both variants on
`args[1]`: an optional leading `+` followed by at least one decimal
digit, value at most `USIZE_MAX`; a leading `-` is not accepted for an
unsigned type, and the empty string fails. -/
def parseUsize (s : String) : Option Nat :=
  match s.data with
  | [] => none
  | '+' :: rest => if rest.isEmpty then none else parseUsizeDigits rest 0
  | cs => parseUsizeDigits cs 0

/-- Observable outcome of one program run: the lines printed by each
`println!` call on stdout, the lines printed by each `eprintln!` call on
stderr, the process exit status, the list built (if construction was
reached), and the visited count returned by the traversal (if reached).
Output lines that print only unmodelled real-time quantities
(`Duration`, cycle counts, the `f64` statistics) are omitted from the
stdout field; the statistics guard is modelled by `efficiencyMetrics`
and `avgTimePerNode` below. -/
structure RunResult where
  stdoutLines : List String
  stderrLines : List String
  exitCode : Nat
  built : Option (LinkedList Nat)
  visited : Option Nat

/-- Model of `fn main` of `timed_traversal.rs`: missing argument prints
usage to stderr and returns; an unparseable argument prints an error to
stderr and returns; otherwise the list is built by pushing `0..num_nodes`,
traversed, and the success or mismatch line is printed. -/
def timed_traversal_main (args : List String) : RunResult :=
  if args.length < 2 then
    { stdoutLines := []
      stderrLines := ["Usage: " ++ args.headD "" ++ " <number_of_nodes>",
                      "Example: " ++ args.headD "" ++ " 1000000"]
      exitCode := 0
      built := none
      visited := none }
  else
    match parseUsize (args.getD 1 "") with
    | none =>
      { stdoutLines := []
        stderrLines := ["Error: The argument must be a valid positive integer."]
        exitCode := 0
        built := none
        visited := none }
    | some num_nodes =>
      let list := buildList num_nodes
      let visited := list.traverse_and_time
      let resultLine :=
        if visited = num_nodes then
          "✅ Traversal successful: " ++ toString visited ++ " nodes visited."
        else
          "❌ Traversal failed: Expected " ++ toString num_nodes ++
            " nodes, but visited " ++ toString visited ++ "."
      { stdoutLines := ["--- Linked List Traversal Benchmark ---",
                        "List Size (N): " ++ toString num_nodes,
                        "\n--- Traversal Results ---",
                        resultLine]
        stderrLines := []
        exitCode := 0
        built := some list
        visited := some visited }

/-- Model of `fn main` of `main.rs`: missing argument prints usage to
stdout and returns; the argument is parsed with
`parse().unwrap_or(100_000)`, so every parse failure silently falls back
to 100000; the list is then built and traversed. -/
def main_rs (args : List String) : RunResult :=
  if args.length < 2 then
    { stdoutLines := ["Usage: cargo run -- <num_nodes>"]
      stderrLines := []
      exitCode := 0
      built := none
      visited := none }
  else
    let num_nodes := (parseUsize (args.getD 1 "")).getD 100000
    let list := buildList num_nodes
    let visited := list.benchmark_traversal
    { stdoutLines := ["--- x86_64 Hardware Benchmark ---",
                      "List Size: " ++ toString num_nodes,
                      "\n[Results]"]
      stderrLines := []
      exitCode := 0
      built := some list
      visited := some visited }

/-- Efficiency-metrics section of `main.rs` (`if visited > 0` block):
time per node, cycles per node, effective frequency, computed over `ℚ`
in place of `f64`; `none` when the guard skips the block. -/
def efficiencyMetrics (visited : Nat) (time_ns : Nat) (cycles : Nat) :
    Option (ℚ × ℚ × ℚ) :=
  if visited > 0 then
    some ((time_ns : ℚ) / (visited : ℚ),
          (cycles : ℚ) / (visited : ℚ),
          (cycles : ℚ) / (time_ns : ℚ))
  else
    none

/-- Average-time-per-node computation of `timed_traversal.rs`
(`if visited > 0` block), over `ℚ` in place of `f64`; `none` when the
guard skips the division. -/
def avgTimePerNode (visited : Nat) (time_in_ns : Nat) : Option ℚ :=
  if visited > 0 then some ((time_in_ns : ℚ) / (visited : ℚ)) else none

/-- Lists reachable from `LinkedList::new()` by `push` operations only:
the construction path both `main` functions use. -/
inductive Reachable {T : Type} : LinkedList T → Prop where
  | new : Reachable LinkedList.new
  | push (l : LinkedList T) (x : T) : Reachable l → Reachable (l.push x)

theorem benchmark_traversal_eq_chainLength {T : Type} (l : LinkedList T) :
    l.benchmark_traversal = chainLength l.head := by
  unfold LinkedList.benchmark_traversal
  rw [traverseLoop_eq_chainLength_add]
  omega

theorem traverse_and_time_buildList (n : Nat) :
    (buildList n).traverse_and_time = n := by
  rw [traverse_and_time_eq_chainLength, chainLength_buildList]

theorem benchmark_traversal_buildList (n : Nat) :
    (buildList n).benchmark_traversal = n := by
  rw [benchmark_traversal_eq_chainLength, chainLength_buildList]

theorem reachable_count_eq_chainLength {T : Type} (l : LinkedList T)
    (h : Reachable l) : l.count = chainLength l.head := by
  induction h with
  | new => rfl
  | push l x _ ih =>
    rw [push_count, push_head]
    simp only [chainLength, ih]

/-- C1: for every N ≥ 0, building a list by N successive push (prepend)
operations from `new()` and traversing it — with either variant's
traversal — reports exactly N nodes visited; in particular for input 5
the list built by pushing 0..4 reports 5 nodes visited and the program
prints the success line, not the mismatch warning. -/
theorem C1_push_then_traverse_counts :
    (∀ n : Nat, (buildList n).traverse_and_time = n) ∧
    (∀ n : Nat, (buildList n).benchmark_traversal = n) ∧
    (buildList 5).traverse_and_time = 5 ∧
    (timed_traversal_main ["prog", "5"]).stdoutLines =
      ["--- Linked List Traversal Benchmark ---",
       "List Size (N): 5",
       "\n--- Traversal Results ---",
       "✅ Traversal successful: 5 nodes visited."] :=
  ⟨traverse_and_time_buildList, benchmark_traversal_buildList, rfl, rfl⟩

/-- C2: after pushing values 0, 1, ..., N-1 in that order, the traversal
loop dereferences the nodes in reverse insertion order — payloads
N-1, N-2, ..., 0, i.e. the reverse of `range N` — and each node is
visited exactly once (the payload sequence has no duplicates). -/
theorem C2_traversal_reverse_order (n : Nat) :
    chainData (buildList n).head = (List.range n).reverse ∧
    (chainData (buildList n).head).Nodup := by
  refine ⟨chainData_buildList n, ?_⟩
  rw [chainData_buildList n]
  exact List.nodup_reverse.mpr (List.nodup_range n)

/-- C3: traversal is idempotent and non-mutating: the list handed back by
a `traverse_and_time` call has the same head chain and the same `count`
field as the input, and a second traversal on the returned list yields
the same visited count as the first. -/
theorem C3_traversal_idempotent (T : Type) (l : LinkedList T) :
    (l.traverse_and_time_run).2.head = l.head ∧
    (l.traverse_and_time_run).2.count = l.count ∧
    ((l.traverse_and_time_run).2.traverse_and_time_run).1 =
      (l.traverse_and_time_run).1 :=
  ⟨rfl, rfl, rfl⟩

/-- C4: for every list reachable from `new()` by push operations, the
`count` field equals the number of nodes reachable by following `next`
links from the head to the terminal none; `new()` establishes the
invariant and every `push` preserves it. -/
theorem C4_count_invariant (T : Type) (l : LinkedList T)
    (h : Reachable l) : l.count = chainLength l.head :=
  reachable_count_eq_chainLength l h

/-- C4 witness: the invariant at the concrete list built by two pushes. -/
theorem C4_count_invariant_witness :
    ((LinkedList.new.push 0).push 1).count =
      chainLength ((LinkedList.new.push 0).push 1).head :=
  C4_count_invariant Nat ((LinkedList.new.push 0).push 1)
    (Reachable.push _ 1 (Reachable.push _ 0 Reachable.new))

/-- C5: when the visited count is 0 the derived per-node statistics of
both variants are skipped (`none`) rather than computed, so no division
is reached with a zero visited count; whenever the visited count is
positive the guarded blocks do run. The boundary case N = 0 feeds
visited = 0 into both guards. -/
theorem C5_metrics_guard :
    (∀ time_ns cycles : Nat,
      efficiencyMetrics ((buildList 0).benchmark_traversal) time_ns cycles =
        none) ∧
    (∀ time_in_ns : Nat,
      avgTimePerNode ((buildList 0).traverse_and_time) time_in_ns = none) ∧
    (∀ visited time_ns cycles : Nat, 0 < visited →
      (efficiencyMetrics visited time_ns cycles).isSome = true) ∧
    (∀ visited time_in_ns : Nat, 0 < visited →
      (avgTimePerNode visited time_in_ns).isSome = true) := by
  refine ⟨fun t c => rfl, fun t => rfl, ?_, ?_⟩
  · intro visited t c h
    simp [efficiencyMetrics, h]
  · intro visited t h
    simp [avgTimePerNode, h]

/-- C5 witness: the guarded metrics are computed at visited count 1. -/
theorem C5_metrics_guard_witness :
    (efficiencyMetrics 1 5 7).isSome = true :=
  C5_metrics_guard.2.2.1 1 5 7 (by decide)

/-- C6: `push(value)` makes a new node holding the value, with the old
head as its successor, the new head of the list, and increments `count`
by exactly one; the old chain is carried over unchanged as the new
node's `next` field, and `push` is a total function (no error path). -/
theorem C6_push_spec (T : Type) (l : LinkedList T) (x : T) :
    (l.push x).head = Link.some (Node.mk x l.head) ∧
    (l.push x).count = l.count + 1 :=
  ⟨rfl, rfl⟩

/-- C7 counterexample: in the `main.rs` variant, a run with no positional
argument leaves stderr empty and prints its usage message to stdout, so
the claim that the usage message goes to the error stream is false for
this variant. -/
theorem C7_usage_stream_counterexample :
    (main_rs ["target/debug/linked_list_bench"]).stderrLines = [] ∧
    (main_rs ["target/debug/linked_list_bench"]).stdoutLines =
      ["Usage: cargo run -- <num_nodes>"] :=
  ⟨rfl, rfl⟩

/-- C7 (amended): when no positional argument is supplied, both variants
perform no list construction and exit with status 0; the
`timed_traversal.rs` variant prints its usage message to stderr, while
the `main.rs` variant prints its usage message to stdout and leaves
stderr empty. -/
theorem C7_missing_argument (args : List String) (h : args.length < 2) :
    (timed_traversal_main args).stderrLines =
      ["Usage: " ++ args.headD "" ++ " <number_of_nodes>",
       "Example: " ++ args.headD "" ++ " 1000000"] ∧
    (timed_traversal_main args).stdoutLines = [] ∧
    (timed_traversal_main args).built = none ∧
    (timed_traversal_main args).exitCode = 0 ∧
    (main_rs args).stdoutLines = ["Usage: cargo run -- <num_nodes>"] ∧
    (main_rs args).stderrLines = [] ∧
    (main_rs args).built = none ∧
    (main_rs args).exitCode = 0 := by
  simp [timed_traversal_main, main_rs, h]

/-- C7 witness: the amended behaviour at the concrete argument vector
containing only the program name. -/
theorem C7_missing_argument_witness :
    (timed_traversal_main ["prog"]).stderrLines =
      ["Usage: prog <number_of_nodes>", "Example: prog 1000000"] ∧
    (main_rs ["prog"]).stdoutLines = ["Usage: cargo run -- <num_nodes>"] := by
  have h := C7_missing_argument ["prog"] (by decide)
  exact ⟨h.1, h.2.2.2.2.1⟩

/-- C8: on an argument that does not parse as a non-negative `usize`,
neither variant crashes and each applies its one policy consistently:
`timed_traversal.rs` reports a clear error on stderr and returns without
building a list, while `main.rs` falls back to the default count 100000
and proceeds. -/
theorem C8_invalid_argument_policies (a0 s : String)
    (h : parseUsize s = none) :
    (timed_traversal_main [a0, s]).stderrLines =
      ["Error: The argument must be a valid positive integer."] ∧
    (timed_traversal_main [a0, s]).built = none ∧
    (timed_traversal_main [a0, s]).exitCode = 0 ∧
    (main_rs [a0, s]).built = some (buildList 100000) ∧
    (main_rs [a0, s]).exitCode = 0 := by
  have hg : [a0, s].getD 1 "" = s := rfl
  constructor
  · simp [timed_traversal_main, hg, h]
  constructor
  · simp [timed_traversal_main, hg, h]
  constructor
  · simp [timed_traversal_main, hg, h]
  constructor
  · simp [main_rs, hg, h]
  · simp [main_rs, hg, h]

/-- C8 witness: both policies at the concrete unparseable argument
`"abc"`. -/
theorem C8_invalid_argument_policies_witness :
    (timed_traversal_main ["prog", "abc"]).built = none ∧
    (main_rs ["prog", "abc"]).built = some (buildList 100000) := by
  have h := C8_invalid_argument_policies "prog" "abc" rfl
  exact ⟨h.2.1, h.2.2.2.1⟩

/-- C9: for every list reachable from `new()` by push operations only,
the traversal's visited count equals the stored `count` field, so on the
program's own construction path (a successfully parsed argument) the
mismatch branch is never taken: the printed result line is always the
success line, never the "Traversal failed" line. -/
theorem C9_mismatch_branch_unreachable :
    (∀ (T : Type) (l : LinkedList T), Reachable l →
      l.traverse_and_time = l.count) ∧
    (∀ (a0 s : String) (n : Nat), parseUsize s = some n →
      (timed_traversal_main [a0, s]).stdoutLines =
        ["--- Linked List Traversal Benchmark ---",
         "List Size (N): " ++ toString n,
         "\n--- Traversal Results ---",
         "✅ Traversal successful: " ++ toString n ++ " nodes visited."]) := by
  constructor
  · intro T l h
    rw [traverse_and_time_eq_chainLength, reachable_count_eq_chainLength l h]
  · intro a0 s n h
    have hg : [a0, s].getD 1 "" = s := rfl
    simp [timed_traversal_main, hg, h, traverse_and_time_buildList]

/-- C9 witness: the invariant and the success line at the concrete
argument `"5"`. -/
theorem C9_mismatch_branch_unreachable_witness :
    (buildList 2).traverse_and_time = (buildList 2).count ∧
    (timed_traversal_main ["prog", "5"]).stdoutLines =
      ["--- Linked List Traversal Benchmark ---",
       "List Size (N): 5",
       "\n--- Traversal Results ---",
       "✅ Traversal successful: 5 nodes visited."] := by
  constructor
  · exact C9_mismatch_branch_unreachable.1 Nat (buildList 2)
      (Reachable.push _ 1 (Reachable.push _ 0 Reachable.new))
  · exact C9_mismatch_branch_unreachable.2 "prog" "5" 5 rfl

/-- C10: in the `main.rs` variant every parse failure of the argument —
non-numeric text such as "abc", negative numbers such as "-5", and
integers beyond the 64-bit `usize` range — silently yields the fallback
count 100000: stderr stays empty, no warning is printed, and the printed
"List Size" is the fallback value, not the user's input. -/
theorem C10_silent_fallback (a0 s : String) (h : parseUsize s = none) :
    (main_rs [a0, s]).stderrLines = [] ∧
    (main_rs [a0, s]).stdoutLines =
      ["--- x86_64 Hardware Benchmark ---",
       "List Size: 100000",
       "\n[Results]"] ∧
    (main_rs [a0, s]).built = some (buildList 100000) ∧
    (main_rs [a0, s]).visited = some 100000 ∧
    parseUsize "abc" = none ∧
    parseUsize "-5" = none ∧
    parseUsize "18446744073709551616" = none := by
  have hg : [a0, s].getD 1 "" = s := rfl
  refine ⟨?_, ?_, ?_, ?_, rfl, rfl, by decide⟩
  · simp [main_rs, hg, h]
  · simp [main_rs, hg, h]
    rfl
  · simp [main_rs, hg, h]
  · simp [main_rs, hg, h, benchmark_traversal_buildList]

/-- C10 witness: the silent fallback at the concrete argument `"abc"`. -/
theorem C10_silent_fallback_witness :
    (main_rs ["prog", "abc"]).stderrLines = [] ∧
    (main_rs ["prog", "abc"]).stdoutLines =
      ["--- x86_64 Hardware Benchmark ---",
       "List Size: 100000",
       "\n[Results]"] := by
  have h := C10_silent_fallback "prog" "abc" rfl
  exact ⟨h.1, h.2.1⟩
